import Mathlib

set_option maxRecDepth 100000

/-!
Verification development for the starfarmer-backend order/payment core.

The JavaScript sources are shallowly embedded: pure helpers become Lean
functions over `Nat`, `String` and `ℚ` (JS numbers on the code paths in scope
are exact decimal amounts, embedded as rationals, with the single NaN-producing
path modelled explicitly through `Option`); the Express handlers become
functions from a request value and a database snapshot (a list of orders) to a
response, the successor database and a count of notification batches sent.
External collaborators (JSON decoding of the base64 payload, the gateway's
synchronous reply) enter as explicit parameters, mirroring the data the code
receives from them.
-/

/-! ## Byte-level primitives: UTF-8, SHA-256, hex

`crypto.createHash("sha256").update(s).digest("hex")` hashes the UTF-8 bytes
of `s` and prints the 32 digest bytes in lowercase hex.  The implementation
below follows FIPS 180-4 directly, with 32-bit words as `Nat` reduced
`% 4294967296`.
-/

/-- The UTF-8 encoding of one scalar value, most significant byte first. -/
def utf8Bytes (c : Char) : List Nat :=
  let n := c.toNat
  if n < 128 then [n]
  else if n < 2048 then [192 ||| (n >>> 6), 128 ||| (n &&& 63)]
  else if n < 65536 then
    [224 ||| (n >>> 12), 128 ||| ((n >>> 6) &&& 63), 128 ||| (n &&& 63)]
  else
    [240 ||| (n >>> 18), 128 ||| ((n >>> 12) &&& 63),
     128 ||| ((n >>> 6) &&& 63), 128 ||| (n &&& 63)]

/-- The UTF-8 bytes of a string, as `Buffer.from(s, "utf8")` would produce. -/
def strUtf8 (s : String) : List Nat :=
  (s.data.map utf8Bytes).flatten

/-- Right rotation of a 32-bit word held in a `Nat`. -/
def rotr32 (n x : Nat) : Nat :=
  (x >>> n) ||| ((x <<< (32 - n)) % 4294967296)

/-- The 64 SHA-256 round constants (FIPS 180-4 §4.2.2). -/
def sha256K : List Nat :=
  [1116352408, 1899447441, 3049323471, 3921009573, 961987163,
   1508970993, 2453635748, 2870763221, 3624381080, 310598401,
   607225278, 1426881987, 1925078388, 2162078206, 2614888103,
   3248222580, 3835390401, 4022224774, 264347078, 604807628,
   770255983, 1249150122, 1555081692, 1996064986, 2554220882,
   2821834349, 2952996808, 3210313671, 3336571891, 3584528711,
   113926993, 338241895, 666307205, 773529912, 1294757372,
   1396182291, 1695183700, 1986661051, 2177026350, 2456956037,
   2730485921, 2820302411, 3259730800, 3345764771, 3516065817,
   3600352804, 4094571909, 275423344, 430227734, 506948616,
   659060556, 883997877, 958139571, 1322822218, 1537002063,
   1747873779, 1955562222, 2024104815, 2227730452, 2361852424,
   2428436474, 2756734187, 3204031479, 3329325298]

/-- The initial SHA-256 hash value (FIPS 180-4 §5.3.3). -/
def sha256H0 : List Nat :=
  [1779033703, 3144134277, 1013904242, 2773480762, 1359893119,
   2600822924, 528734635, 1541459225]

/-- Big-endian bytes of a value, `n` bytes wide. -/
def beBytes (n v : Nat) : List Nat :=
  match n with
  | 0 => []
  | m + 1 => ((v >>> (8 * m)) % 256) :: beBytes m v

/-- Group a block's bytes into big-endian 32-bit words. -/
def wordsOfBlock : List Nat → List Nat
  | b0 :: b1 :: b2 :: b3 :: rest =>
      ((((b0 <<< 8) ||| b1) <<< 8 ||| b2) <<< 8 ||| b3) :: wordsOfBlock rest
  | _ => []

/-- Extend the 16 message-schedule words to 64 (FIPS 180-4 §6.2.2 step 1). -/
def sha256Extend : Nat → List Nat → List Nat
  | 0, w => w
  | n + 1, w =>
    let i := w.length
    let wa := w.getD (i - 2) 0
    let wb := w.getD (i - 7) 0
    let wc := w.getD (i - 15) 0
    let wd := w.getD (i - 16) 0
    let s0 := (rotr32 7 wc) ^^^ (rotr32 18 wc) ^^^ (wc >>> 3)
    let s1 := (rotr32 17 wa) ^^^ (rotr32 19 wa) ^^^ (wa >>> 10)
    sha256Extend n (w ++ [(wd + s0 + wb + s1) % 4294967296])

/-- One block's 64 compression rounds (FIPS 180-4 §6.2.2 step 3). -/
def sha256Compress : List Nat → List Nat → List Nat → List Nat
  | k :: ks, w :: ws, [a, b, c, d, e, f, g, h] =>
    let bigS1 := (rotr32 6 e) ^^^ (rotr32 11 e) ^^^ (rotr32 25 e)
    let ch := (e &&& f) ^^^ ((e ^^^ 4294967295) &&& g)
    let temp1 := (h + bigS1 + ch + k + w) % 4294967296
    let bigS0 := (rotr32 2 a) ^^^ (rotr32 13 a) ^^^ (rotr32 22 a)
    let maj := (a &&& b) ^^^ (a &&& c) ^^^ (b &&& c)
    let temp2 := (bigS0 + maj) % 4294967296
    sha256Compress ks ws
      [(temp1 + temp2) % 4294967296, a, b, c, (d + temp1) % 4294967296, e, f, g]
  | _, _, hs => hs

/-- Process `fuel` 64-byte blocks, folding each into the running hash. -/
def sha256Blocks : Nat → List Nat → List Nat → List Nat
  | 0, _, hs => hs
  | n + 1, bs, hs =>
    let ws := sha256Extend 48 (wordsOfBlock (bs.take 64))
    let out := sha256Compress sha256K ws hs
    let hs2 := (hs.zip out).map (fun p => (p.1 + p.2) % 4294967296)
    sha256Blocks n (bs.drop 64) hs2

/-- The SHA-256 padding: a 0x80 byte, zeros to 56 mod 64, then the 64-bit
big-endian bit length. -/
def sha256Pad (msg : List Nat) : List Nat :=
  msg ++ [128] ++ List.replicate ((119 - msg.length % 64) % 64) 0
      ++ beBytes 8 (8 * msg.length)

/-- The 32 digest bytes of SHA-256 over a byte sequence. -/
def sha256Bytes (msg : List Nat) : List Nat :=
  let padded := sha256Pad msg
  ((sha256Blocks (padded.length / 64) padded sha256H0).map (beBytes 4)).flatten

/-- One lowercase hex digit. -/
def hexDigit (n : Nat) : Char :=
  if n < 10 then Char.ofNat (48 + n) else Char.ofNat (87 + n)

/-- Lowercase hex rendering of a byte sequence. -/
def bytesToHex (bs : List Nat) : String :=
  ⟨(bs.map (fun b => [hexDigit (b >>> 4), hexDigit (b &&& 15)])).flatten⟩

/-- Node's `crypto.createHash("sha256").update(s).digest("hex")` on a JS
string. -/
def sha256Hex (s : String) : String :=
  bytesToHex (sha256Bytes (strUtf8 s))

/-! ## utils/phonepe.js -/

/-- Embeds `calculateChecksum(payloadBase64, saltKey, saltIndex)`: hex SHA-256 of
payload + "/pg/v1/pay" + salt key, then "###" and the salt index
(phonepe.js lines 6–10; the formatting template here is intact). -/
def calculateChecksum (payloadBase64 saltKey saltIndex : String) : String :=
  let stringToHash := payloadBase64 ++ "/pg/v1/pay" ++ saltKey
  let sha256 := sha256Hex stringToHash
  sha256 ++ "###" ++ saltIndex

/-- Embeds `verifyChecksum(payloadBase64, receivedChecksum, saltKey, saltIndex)`
(phonepe.js lines 13–26).  The digest over payload + salt key is computed,
but the template literal on line 22 is
`` `<span class="math-inline">\{sha256\}\#\#\#</span>{saltIndex}` ``:
it contains no `$`, so `\x7bsha256\x7d` and `\x7bsaltIndex\x7d` are literal
text (backslash-escaping a brace in a JS template yields the brace), and the
expected checksum is this fixed string, independent of the digest and the
salt index.  The comparison is string equality against that constant. -/
def verifyChecksum (payloadBase64 receivedChecksum saltKey saltIndex : String) :
    Bool :=
  let stringToHash := payloadBase64 ++ saltKey
  let sha256 := sha256Hex stringToHash
  let expectedChecksum :=
    "<span class=\x22math-inline\x22>\x7bsha256\x7d###</span>\x7bsaltIndex\x7d"
  expectedChecksum == receivedChecksum

/-- The checksum the spec says `verify` recomputes (spec §4.1: hex SHA-256 of
payload + salt key, no path suffix, formatted "<hexDigest>###<saltIndex>").
This is the spec-side formula, kept separate so it can be compared against
the source's `verifyChecksum` above. -/
def specCallbackChecksum (payloadBase64 saltKey saltIndex : String) : String :=
  sha256Hex (payloadBase64 ++ saltKey) ++ "###" ++ saltIndex

/-! ## models/order.js

The order document, restricted to the fields the payment lifecycle reads and
writes.  Mongoose `ObjectId` values are embedded as `Nat`; JS numbers as `ℚ`;
optional document fields as `Option`.
-/

/-- The `paymentStatus` enum of the order schema. -/
inductive PaymentStatus
  | pending
  | paid
  | failed
  | not_applicable
deriving DecidableEq

/-- The fulfillment `status` enum of the order schema. -/
inductive OrderStatus
  | payment_pending
  | processing
  | shipped
  | delivered
  | completed
  | cancelled
  | payment_failed
  | payment_issue
deriving DecidableEq

/-- The `paymentMethod` enum of the order schema. -/
inductive PaymentMethod
  | cod
  | online
deriving DecidableEq

/-- One entry of the order's `items` array. -/
structure OrderItem where
  productId : Nat
  quantity : ℚ
  price : ℚ
deriving DecidableEq

/-- The order document (models/order.js). -/
structure Order where
  id : Nat
  userId : Nat
  items : List OrderItem
  paymentMethod : PaymentMethod
  shippingCharge : ℚ
  total : ℚ
  merchantTransactionId : Option String
  gatewayTransactionId : Option String
  paymentStatus : PaymentStatus
  status : OrderStatus
deriving DecidableEq

/-- The `orderSchema.pre("save")` hook (models/order.js lines 98–111): COD
orders get `paymentStatus = not_applicable` on every save and
`status = processing` when new; any other (online) order gets, when new,
`paymentStatus = pending` and `status = payment_pending`. -/
def preSaveHook (isNew : Bool) (o : Order) : Order :=
  if o.paymentMethod = PaymentMethod.cod then
    let o1 := { o with paymentStatus := PaymentStatus.not_applicable }
    if isNew then { o1 with status := OrderStatus.processing } else o1
  else if isNew then
    { o with paymentStatus := PaymentStatus.pending,
             status := OrderStatus.payment_pending }
  else o

/-- Schema validation relevant to the claims: every item has `quantity ≥ 1`
(`min: 1` on `items.quantity`).  Required scalar fields are always present in
the embedding by construction. -/
def mongooseValidate (o : Order) : Bool :=
  o.items.all (fun it => decide (1 ≤ it.quantity))

/-- Mongoose `Order.create`: validate the document, then run the pre-save hook
with `isNew = true` and persist the result; a validation failure throws
(here: `none`). -/
def orderCreate (o : Order) : Option Order :=
  if mongooseValidate o then some (preSaveHook true o) else none

/-- Mongoose `Order.findOne({ merchantTransactionId: mtid })` on a database
snapshot: the first order carrying that merchant transaction id. -/
def findByMtid (db : List Order) (mtid : String) : Option Order :=
  db.find? (fun o => o.merchantTransactionId == some mtid)

/-- Mongoose `document.save()` on an existing document: the stored order with
the same `_id` is replaced by the new value. -/
def saveOrder (db : List Order) (o : Order) : List Order :=
  db.map (fun x => if x.id == o.id then o else x)

/-- Mongoose `Order.findByIdAndUpdate(id, { status, paymentStatus })`: a direct
field update that does not run the pre-save hook. -/
def updateOrderById (db : List Order) (id : Nat)
    (st : OrderStatus) (ps : PaymentStatus) : List Order :=
  db.map (fun x =>
    if x.id == id then { x with status := st, paymentStatus := ps } else x)

/-! ## routes/payment.js — the PhonePe callback handler

The handler is split where the code has its read/write phases: steps 1–5 of
the source (checks, checksum verification, decode, `findOne`, the idempotency
gate on the snapshot it read) form `callbackRead`; steps 6–8 (computing the
updated order from that snapshot, `save`, the notification batch) form
`callbackWrite`.  `phonepeCallback` composes the two against the same
database, which is the sequential behaviour; `raceCallbacks` interleaves two
deliveries as read–read–write–write.

JSON decoding of the base64 `response` field is an external collaborator and
enters as a `decode` parameter; a `none` result stands for the `JSON.parse`
exception, which the surrounding `try` turns into a 500 response.
-/

/-- The `data` block of a decoded callback payload.  Absent JSON fields are
`none`; `amount` is the integer paise value sent by the gateway. -/
structure CallbackData where
  merchantTransactionId : Option String
  transactionId : Option String
  state : Option String
  responseCode : Option String
  amount : Option ℚ
deriving DecidableEq

/-- A decoded callback payload: `{ success, code, message, data }`. -/
structure CallbackPayload where
  success : Bool
  code : Option String
  message : Option String
  data : Option CallbackData
deriving DecidableEq

/-- The inbound callback request: the `response` body field and the
`x-verify` header, each possibly absent. -/
structure CallbackRequest where
  response : Option String
  xVerify : Option String
deriving DecidableEq

/-- The PhonePe salt configuration read from the environment. -/
structure SaltEnv where
  saltKey : String
  saltIndex : String

/-- The plain-text acknowledgments the callback handler can produce. -/
inductive CallbackResponse
  | badRequest (msg : String)
  | ok (msg : String)
  | serverError (msg : String)
deriving DecidableEq

/-- Outcome of the handler's read phase: an early response that leaves the
database untouched, or a decoded payload together with the order snapshot
that passed the idempotency gate. -/
inductive ReadOutcome
  | early (r : CallbackResponse)
  | proceed (payload : CallbackPayload) (order : Order)
deriving DecidableEq

/-- Steps 1–5 of the callback handler (payment.js lines 22–96): missing
`response` field → 400; missing `x-verify` header → 400; checksum
verification failure → 400; `JSON.parse` failure → 500; missing merchant
transaction id → 200 acknowledgment; order not found → 200 acknowledgment;
order already `paid` or `failed` → 200 "Already processed."; otherwise
proceed with the decoded payload and the order that was read. -/
def callbackRead (env : SaltEnv) (decode : String → Option CallbackPayload)
    (req : CallbackRequest) (db : List Order) : ReadOutcome :=
  match req.response with
  | none => ReadOutcome.early
      (CallbackResponse.badRequest "Invalid callback: Missing response payload")
  | some enc =>
    match req.xVerify with
    | none => ReadOutcome.early
        (CallbackResponse.badRequest "Invalid callback: Missing verification header")
    | some received =>
      if verifyChecksum enc received env.saltKey env.saltIndex then
        match decode enc with
        | none => ReadOutcome.early
            (CallbackResponse.serverError "Internal Server Error processing callback.")
        | some payload =>
          match payload.data.bind (fun d => d.merchantTransactionId) with
          | none => ReadOutcome.early
              (CallbackResponse.ok "Callback acknowledged, missing merchant transaction ID.")
          | some mtid =>
            match findByMtid db mtid with
            | none => ReadOutcome.early
                (CallbackResponse.ok "Order not found, acknowledged.")
            | some order =>
              if order.paymentStatus = PaymentStatus.paid ∨
                  order.paymentStatus = PaymentStatus.failed then
                ReadOutcome.early (CallbackResponse.ok "Already processed.")
              else
                ReadOutcome.proceed payload order
      else
        ReadOutcome.early (CallbackResponse.badRequest "Checksum mismatch")

/-- The strict comparison `paymentAmount !== order.total` of payment.js line
113.  `data?.amount` missing makes `paymentAmount` the JS value
`undefined / 100 = NaN` (here `none`), and `NaN !== x` holds for every `x`,
so an absent amount always compares as a mismatch. -/
def amountMismatch (paymentAmount : Option ℚ) (total : ℚ) : Bool :=
  match paymentAmount with
  | none => true
  | some q => decide (q ≠ total)

/-- The success classification of payment.js lines 100–105:
`success && code === "PAYMENT_SUCCESS" && paymentState === "COMPLETED" &&
responseCode === "SUCCESS"`. -/
def isPaymentSuccess (payload : CallbackPayload) : Bool :=
  payload.success &&
  payload.code == some "PAYMENT_SUCCESS" &&
  payload.data.bind (fun d => d.state) == some "COMPLETED" &&
  payload.data.bind (fun d => d.responseCode) == some "SUCCESS"

/-- The field assignments of payment.js lines 117–123 (success with amount
mismatch): `status = "payment_issue"`, `paymentStatus = "paid"`, store the
gateway transaction id. -/
def paidMismatchOrder (order : Order) (gtid : Option String) : Order :=
  { order with status := OrderStatus.payment_issue,
               paymentStatus := PaymentStatus.paid,
               gatewayTransactionId := gtid }

/-- The field assignments of payment.js lines 120–123 (success with matching
amount): `status = "processing"`, `paymentStatus = "paid"`, store the
gateway transaction id. -/
def paidMatchedOrder (order : Order) (gtid : Option String) : Order :=
  { order with status := OrderStatus.processing,
               paymentStatus := PaymentStatus.paid,
               gatewayTransactionId := gtid }

/-- The field assignments of payment.js lines 131–133 (failure/other):
`status = "payment_failed"`, `paymentStatus = "failed"`, store the gateway
transaction id. -/
def failedOrder (order : Order) (gtid : Option String) : Order :=
  { order with status := OrderStatus.payment_failed,
               paymentStatus := PaymentStatus.failed,
               gatewayTransactionId := gtid }

/-- Steps 6–8 of the callback handler (payment.js lines 98–170), applied to
the current database: on the success classification, set
`paid`/`processing` when the converted amount strictly equals the order
total and `paid`/`payment_issue` otherwise, store the gateway transaction
id, save, and send the confirmation/admin notification batch (count 1); in
every other case set `failed`/`payment_failed`, store the gateway
transaction id, save, and send nothing. -/
def callbackWrite (payload : CallbackPayload) (order : Order)
    (db : List Order) : CallbackResponse × List Order × Nat :=
  let gatewayTransactionId := payload.data.bind (fun d => d.transactionId)
  if isPaymentSuccess payload then
    let paymentAmount := (payload.data.bind (fun d => d.amount)).map (fun a => a / 100)
    let order2 :=
      if amountMismatch paymentAmount order.total then
        paidMismatchOrder order gatewayTransactionId
      else
        paidMatchedOrder order gatewayTransactionId
    (CallbackResponse.ok "Callback processed successfully.", saveOrder db order2, 1)
  else
    let order2 := failedOrder order gatewayTransactionId
    (CallbackResponse.ok "Callback processed successfully.", saveOrder db order2, 0)

/-- Apply a read-phase outcome to a database: an early outcome answers with
the database untouched and no notifications; a proceed outcome runs the
write phase. -/
def applyOutcome (o : ReadOutcome) (db : List Order) :
    CallbackResponse × List Order × Nat :=
  match o with
  | ReadOutcome.early r => (r, db, 0)
  | ReadOutcome.proceed payload order => callbackWrite payload order db

/-- The whole `POST /phonepe-callback` handler: read phase then write phase
against the same database, returning the acknowledgment, the new database
and the number of notification batches sent. -/
def phonepeCallback (env : SaltEnv) (decode : String → Option CallbackPayload)
    (req : CallbackRequest) (db : List Order) :
    CallbackResponse × List Order × Nat :=
  applyOutcome (callbackRead env decode req db) db

/-- Two deliveries interleaved as read–read–write–write: both read phases see
the initial database, then the write phases run in order.  Returns the final
database and the notification counts of the two deliveries. -/
def raceCallbacks (env : SaltEnv) (decode : String → Option CallbackPayload)
    (req1 req2 : CallbackRequest) (db : List Order) :
    List Order × Nat × Nat :=
  let o1 := callbackRead env decode req1 db
  let o2 := callbackRead env decode req2 db
  let r1 := applyOutcome o1 db
  let r2 := applyOutcome o2 r1.2.1
  (r2.2.1, r1.2.2, r2.2.2)

/-! ## routes/order.js — creation, payment initiation, status lookup

The route handlers become functions of the authenticated user, the request
body, and the database snapshot.  The fresh document id and merchant
transaction id are parameters (the source gets them from Mongo and
`generateMerchantTransactionId`), as is the gateway's synchronous reply.
-/

/-- The `shippingAddress` value object. -/
structure ShippingAddress where
  fullName : String
  phone : String
  addressLine1 : String
  addressLine2 : Option String
  city : String
  state : String
  pincode : String
deriving DecidableEq

/-- A request body for order creation / payment initiation: the fields the
routes read.  `paymentMethod` is the raw string sent by the client; fields a
client can omit are `Option`. -/
structure OrderBody where
  paymentMethod : String
  items : List OrderItem
  shippingAddress : Option ShippingAddress
  shippingCharge : Option ℚ
  total : Option ℚ
deriving DecidableEq

/-- JS truthiness of an optional numeric field: `undefined` and `0` are
falsy (the NaN case cannot arise from a JSON number literal). -/
def jsTruthyNum (x : Option ℚ) : Bool :=
  match x with
  | none => false
  | some q => decide (q ≠ 0)

/-- JS truthiness of an optional string field: `undefined` and `""` are
falsy. -/
def jsTruthyStr (x : Option String) : Bool :=
  match x with
  | none => false
  | some s => decide (s ≠ "")

/-- Result of `POST /` (COD creation): the created (persisted) order, or an
error response with an HTTP status. -/
inductive CODResult
  | created (order : Order)
  | failed (status : Nat) (msg : String)
deriving DecidableEq

/-- The `orderData` document the COD route builds from the request body
(routes/order.js lines 133–142); `status` and `paymentStatus` are the schema
defaults, which the pre-save hook overrides for COD. -/
def codOrderDoc (userId newId : Nat) (body : OrderBody) : Order :=
  { id := newId
    userId := userId
    items := body.items
    paymentMethod := PaymentMethod.cod
    shippingCharge := body.shippingCharge.getD 0
    total := body.total.getD 0
    merchantTransactionId := none
    gatewayTransactionId := none
    paymentStatus := PaymentStatus.pending
    status := OrderStatus.payment_pending }

/-- The `POST /` COD-creation handler (routes/order.js lines 123–192):
reject non-COD bodies; reject when `shippingAddress`, `total` or `items` is
missing/falsy or `items` is empty; otherwise build the document from the
body (statuses left to the schema defaults and the pre-save hook) and
`Order.create` it.  `userId` is the authenticated user, `newId` the id Mongo
assigns.  No relation between `total`, the items and `shippingCharge` is
checked anywhere on this path. -/
def postCODOrder (userId newId : Nat) (body : OrderBody) : CODResult :=
  if body.paymentMethod ≠ "cod" then
    CODResult.failed 400
      "This endpoint is only for COD orders. Use /initiate-payment for online."
  else if body.shippingAddress = none ∨ jsTruthyNum body.total = false ∨
      body.items = [] then
    CODResult.failed 400 "Missing required order data for COD."
  else
    match orderCreate (codOrderDoc userId newId body) with
    | some order => CODResult.created order
    | none => CODResult.failed 400 "Order validation failed"

/-- The PhonePe configuration read from the environment by the initiate
route; each variable may be unset. -/
structure GatewayEnv where
  merchantId : Option String
  saltKey : Option String
  saltIndex : Option String
  payApiUrl : Option String
  redirectUrl : Option String
  callbackUrl : Option String

/-- Presence check of routes/order.js lines 225–235: every gateway
environment variable must be set. -/
def gatewayEnvConfigured (e : GatewayEnv) : Bool :=
  e.merchantId.isSome && e.saltKey.isSome && e.saltIndex.isSome &&
  e.payApiUrl.isSome && e.redirectUrl.isSome && e.callbackUrl.isSome

/-- The gateway's synchronous answer to the pay call: either an axios-resolved
reply (its `success` flag, the optional nested redirect URL, the optional
message), or a thrown axios error with an optional HTTP status. -/
inductive GatewayReply
  | resolved (success : Bool) (redirectUrl : Option String) (message : Option String)
  | axiosFailure (status : Option Nat) (message : String)

/-- Result of `POST /initiate-payment`: the redirect URL, or an error
response with an HTTP status. -/
inductive InitiateResult
  | redirect (url : String)
  | failed (status : Nat) (msg : String)
deriving DecidableEq

/-- The order document the initiate route builds from the request body
(routes/order.js lines 240–250); `status` and `paymentStatus` are the schema
defaults, which the pre-save hook confirms for a new online order. -/
def onlineOrderDoc (userId newId : Nat) (mtid : String) (body : OrderBody) :
    Order :=
  { id := newId
    userId := userId
    items := body.items
    paymentMethod := PaymentMethod.online
    shippingCharge := body.shippingCharge.getD 0
    total := body.total.getD 0
    merchantTransactionId := some mtid
    gatewayTransactionId := none
    paymentStatus := PaymentStatus.pending
    status := OrderStatus.payment_pending }

/-- The `POST /initiate-payment` handler (routes/order.js lines 195–340):
validate the body and the environment, create the order (pre-save hook sets
`pending`/`payment_pending`), call the gateway, and
- on a resolved reply whose `success` is set and which carries a redirect
  URL, answer with that URL, leaving the order pending;
- on any other resolved reply, `findByIdAndUpdate` the order to
  `payment_failed`/`failed` and surface a 500 error;
- on a thrown axios error, surface the error through the catch block —
  which contains no order update, so the order stays as created. -/
def initiatePayment (env : GatewayEnv) (userId newId : Nat) (mtid : String)
    (gw : GatewayReply) (body : OrderBody) (db : List Order) :
    InitiateResult × List Order :=
  if body.paymentMethod ≠ "online" then
    (InitiateResult.failed 400
      "This endpoint is only for online payments via PhonePe.", db)
  else
    let userPhone := body.shippingAddress.map (fun a => a.phone)
    if body.shippingAddress = none ∨ jsTruthyNum body.total = false ∨
        body.items = [] ∨ jsTruthyStr userPhone = false then
      (InitiateResult.failed 400
        "Missing required data for online payment initiation.", db)
    else if gatewayEnvConfigured env = false then
      (InitiateResult.failed 500 "Payment gateway configuration error.", db)
    else
      match orderCreate (onlineOrderDoc userId newId mtid body) with
      | none => (InitiateResult.failed 400 "Order validation failed", db)
      | some order =>
        let db1 := db ++ [order]
        match gw with
        | GatewayReply.resolved success url message =>
          if success ∧ url.isSome then
            (InitiateResult.redirect (url.getD ""), db1)
          else
            let db2 := updateOrderById db1 order.id
              OrderStatus.payment_failed PaymentStatus.failed
            (InitiateResult.failed 500
              (message.getD "Failed to initiate payment with PhonePe."), db2)
        | GatewayReply.axiosFailure st msg =>
          (InitiateResult.failed (st.getD 500) msg, db1)

/-- The fields kept by `.select("paymentStatus status _id")` in the
status-by-mtid lookup. -/
structure SelectedOrder where
  id : Nat
  paymentStatus : PaymentStatus
  status : OrderStatus
deriving DecidableEq

/-- The projection `.select("paymentStatus status _id")`. -/
def selectStatusFields (o : Order) : SelectedOrder :=
  { id := o.id, paymentStatus := o.paymentStatus, status := o.status }

/-- Result of `GET /status-by-mtid/:mtid`. -/
inductive StatusResult
  | found (orderId : Nat) (paymentStatus : PaymentStatus)
  | notFound (status : Nat) (msg : String)
deriving DecidableEq

/-- The `GET /status-by-mtid/:mtid` handler (routes/order.js lines 39–69):
`Order.findOne({ merchantTransactionId, userId: req.user._id })` restricted
to the selected fields; 404 when nothing matches; otherwise a JSON body
carrying the order id and its payment status. -/
def statusByMtid (userId : Nat) (mtid : String) (db : List Order) :
    StatusResult :=
  match (db.find? (fun o =>
      o.merchantTransactionId == some mtid && o.userId == userId)).map
      selectStatusFields with
  | none => StatusResult.notFound 404 "Order not found for this transaction ID."
  | some s => StatusResult.found s.id s.paymentStatus

/-! ## Concrete fixtures

Closed values used by witnesses and counterexamples: a salt configuration, a
decoded-payload oracle over three opaque base64 strings, orders, and request
bodies.  `corruptChecksumW` is the fixed string the source's `verifyChecksum`
actually compares against (see its doc above). -/

/-- The fixed string accepted by the source's `verifyChecksum`. -/
def corruptChecksumW : String :=
  "<span class=\x22math-inline\x22>\x7bsha256\x7d###</span>\x7bsaltIndex\x7d"

/-- A salt configuration. -/
def saltEnvW : SaltEnv := { saltKey := "key", saltIndex := "1" }

/-- An order line: 2 units at 200 each. -/
def itemW : OrderItem := { productId := 1, quantity := 2, price := 200 }

/-- An online order awaiting its callback: total 500, merchant transaction id
"MT1". -/
def pendingOrderW : Order :=
  { id := 7
    userId := 5
    items := [itemW]
    paymentMethod := PaymentMethod.online
    shippingCharge := 100
    total := 500
    merchantTransactionId := some "MT1"
    gatewayTransactionId := none
    paymentStatus := PaymentStatus.pending
    status := OrderStatus.payment_pending }

/-- The same order already reconciled as paid. -/
def paidOrderW : Order :=
  { pendingOrderW with
      paymentStatus := PaymentStatus.paid
      status := OrderStatus.processing
      gatewayTransactionId := some "GT1" }

/-- A success callback payload for "MT1": amount 50000 paise = 500. -/
def successPayloadW : CallbackPayload :=
  { success := true
    code := some "PAYMENT_SUCCESS"
    message := none
    data := some
      { merchantTransactionId := some "MT1"
        transactionId := some "GT1"
        state := some "COMPLETED"
        responseCode := some "SUCCESS"
        amount := some 50000 } }

/-- A failure callback payload for "MT1". -/
def failurePayloadW : CallbackPayload :=
  { success := false
    code := some "PAYMENT_ERROR"
    message := some "Payment declined"
    data := some
      { merchantTransactionId := some "MT1"
        transactionId := some "GT2"
        state := some "FAILED"
        responseCode := some "PAYMENT_DECLINED"
        amount := none } }

/-- A success-classified payload whose data block carries no amount. -/
def missingAmountPayloadW : CallbackPayload :=
  { success := true
    code := some "PAYMENT_SUCCESS"
    message := none
    data := some
      { merchantTransactionId := some "MT1"
        transactionId := some "GT1"
        state := some "COMPLETED"
        responseCode := some "SUCCESS"
        amount := none } }

/-- The JSON-decode oracle: three opaque base64 strings decode to the three
payloads above; everything else fails to parse. -/
def decodeW : String → Option CallbackPayload := fun s =>
  if s = "encS" then some successPayloadW
  else if s = "encF" then some failurePayloadW
  else if s = "encN" then some missingAmountPayloadW
  else none

/-- A callback request carrying the success payload, signed with the one
string the source's `verifyChecksum` accepts. -/
def reqSW : CallbackRequest :=
  { response := some "encS", xVerify := some corruptChecksumW }

/-- A callback request carrying the failure payload. -/
def reqFW : CallbackRequest :=
  { response := some "encF", xVerify := some corruptChecksumW }

/-- A callback request carrying the missing-amount payload. -/
def reqNW : CallbackRequest :=
  { response := some "encN", xVerify := some corruptChecksumW }

/-- A shipping address. -/
def addressW : ShippingAddress :=
  { fullName := "A Farmer"
    phone := "9876543210"
    addressLine1 := "Village Road"
    addressLine2 := none
    city := "Pune"
    state := "MH"
    pincode := "411001" }

/-- A COD creation body whose declared total (999) disagrees with the items
sum plus shipping (1 × 10 + 0 = 10). -/
def codBodyW : OrderBody :=
  { paymentMethod := "cod"
    items := [{ productId := 1, quantity := 1, price := 10 }]
    shippingAddress := some addressW
    shippingCharge := some 0
    total := some 999 }

/-- A fully configured gateway environment. -/
def gatewayEnvW : GatewayEnv :=
  { merchantId := some "M1"
    saltKey := some "key"
    saltIndex := some "1"
    payApiUrl := some "https://pay.example"
    redirectUrl := some "https://redir.example"
    callbackUrl := some "https://cb.example" }

/-- An online-payment body consistent with `pendingOrderW`. -/
def onlineBodyW : OrderBody :=
  { paymentMethod := "online"
    items := [itemW]
    shippingAddress := some addressW
    shippingCharge := some 100
    total := some 500 }

/-- Classifier for 400-equivalent callback responses. -/
def CallbackResponse.is400 : CallbackResponse → Bool
  | CallbackResponse.badRequest _ => true
  | _ => false

/-- An order document as a caller might try to force it: COD with
caller-supplied `paymentStatus = paid` and `status = shipped`. -/
def codSuppliedW : Order :=
  { pendingOrderW with
      paymentMethod := PaymentMethod.cod
      merchantTransactionId := none
      paymentStatus := PaymentStatus.paid
      status := OrderStatus.shipped }

/-- What creation actually persists for `codSuppliedW`: the pre-save hook
overrides both status fields. -/
def codCreatedW : Order :=
  { codSuppliedW with
      paymentStatus := PaymentStatus.not_applicable
      status := OrderStatus.processing }

/-- A callback request whose signature header does not verify. -/
def reqBadW : CallbackRequest :=
  { response := some "encS", xVerify := some "wrong" }

/-! ## Helper lemmas -/

/-- The code's strict amount comparison reads equal exactly when the converted
amount is present and equals the total. -/
theorem amountMismatch_false_iff (pa : Option ℚ) (t : ℚ) :
    amountMismatch pa t = false ↔ pa = some t := by
  cases pa <;> simp [amountMismatch]

/-- Saving an update of the found order (same `_id`, still matching the
predicate) makes a later `findOne` with the same predicate return the
update. -/
theorem find?_saveOrder (db : List Order) (p : Order → Bool) (o o2 : Order)
    (hfind : db.find? p = some o) (hid : o2.id = o.id) (hp : p o2 = true) :
    (saveOrder db o2).find? p = some o2 := by
  induction db with
  | nil => simp [List.find?] at hfind
  | cons hd tl ih =>
    have hsave : saveOrder (hd :: tl) o2 =
        (if hd.id == o2.id then o2 else hd) :: saveOrder tl o2 := rfl
    rw [hsave]
    by_cases hph : p hd = true
    · rw [List.find?_cons_of_pos _ hph] at hfind
      have hdo : hd = o := by injection hfind
      have hbeq : (hd.id == o2.id) = true := by
        subst hdo; simp [hid]
      rw [if_pos hbeq]
      exact List.find?_cons_of_pos _ hp
    · rw [List.find?_cons_of_neg _ (by simp [hph])] at hfind
      by_cases hbeq : (hd.id == o2.id) = true
      · rw [if_pos hbeq]
        exact List.find?_cons_of_pos _ hp
      · rw [if_neg hbeq, List.find?_cons_of_neg _ (by simp [hph])]
        exact ih hfind

/-- Evaluation of the read phase once the whole chain up to the order lookup
is fixed: only the idempotency gate remains. -/
theorem callbackRead_chain (env : SaltEnv)
    (decode : String → Option CallbackPayload) (req : CallbackRequest)
    (db : List Order) (enc received : String) (payload : CallbackPayload)
    (mtid : String) (order : Order)
    (hresp : req.response = some enc) (hxv : req.xVerify = some received)
    (hver : verifyChecksum enc received env.saltKey env.saltIndex = true)
    (hdec : decode enc = some payload)
    (hmtid : payload.data.bind (fun d => d.merchantTransactionId) = some mtid)
    (hfind : findByMtid db mtid = some order) :
    callbackRead env decode req db =
      (if order.paymentStatus = PaymentStatus.paid ∨
          order.paymentStatus = PaymentStatus.failed then
        ReadOutcome.early (CallbackResponse.ok "Already processed.")
      else ReadOutcome.proceed payload order) := by
  unfold callbackRead
  rw [hresp]; dsimp only
  rw [hxv]; dsimp only
  rw [if_pos hver]
  rw [hdec]; dsimp only
  rw [hmtid]; dsimp only
  rw [hfind]

/-- Inversion of the read phase: a `proceed` outcome pins the whole chain. -/
theorem callbackRead_proceed_inv (env : SaltEnv)
    (decode : String → Option CallbackPayload) (req : CallbackRequest)
    (db : List Order) (payload : CallbackPayload) (order : Order)
    (h : callbackRead env decode req db = ReadOutcome.proceed payload order) :
    ∃ enc received mtid,
      req.response = some enc ∧ req.xVerify = some received ∧
      verifyChecksum enc received env.saltKey env.saltIndex = true ∧
      decode enc = some payload ∧
      payload.data.bind (fun d => d.merchantTransactionId) = some mtid ∧
      findByMtid db mtid = some order ∧
      ¬(order.paymentStatus = PaymentStatus.paid ∨
        order.paymentStatus = PaymentStatus.failed) := by
  cases hresp : req.response with
  | none => simp [callbackRead, hresp] at h
  | some enc =>
    cases hxv : req.xVerify with
    | none => simp [callbackRead, hresp, hxv] at h
    | some received =>
      by_cases hver : verifyChecksum enc received env.saltKey env.saltIndex = true
      case neg => simp [callbackRead, hresp, hxv, hver] at h
      case pos =>
        cases hdec : decode enc with
        | none => simp [callbackRead, hresp, hxv, hver, hdec] at h
        | some payload0 =>
          cases hmtid : payload0.data.bind (fun d => d.merchantTransactionId) with
          | none => simp [callbackRead, hresp, hxv, hver, hdec, hmtid] at h
          | some mtid =>
            cases hfind : findByMtid db mtid with
            | none => simp [callbackRead, hresp, hxv, hver, hdec, hmtid, hfind] at h
            | some order0 =>
              by_cases hgate : order0.paymentStatus = PaymentStatus.paid ∨
                  order0.paymentStatus = PaymentStatus.failed
              · simp [callbackRead, hresp, hxv, hver, hdec, hmtid, hfind, hgate] at h
              · have hh : ReadOutcome.proceed payload0 order0 =
                    ReadOutcome.proceed payload order := by
                  rw [← h, callbackRead_chain env decode req db enc received
                    payload0 mtid order0 hresp hxv hver hdec hmtid hfind,
                    if_neg hgate]
                obtain ⟨h1, h2⟩ : payload0 = payload ∧ order0 = order := by
                  injection hh with h1 h2; exact ⟨h1, h2⟩
                subst h1; subst h2
                exact ⟨enc, received, mtid, rfl, rfl, hver, hdec, hmtid,
                  hfind, hgate⟩

/-- Shape of the write phase: it always saves an update of the snapshot that
keeps `_id` and the merchant transaction id, sets `paymentStatus` to `paid`
or `failed`, and sends one notification batch exactly on the success
classification. -/
theorem callbackWrite_fields (payload : CallbackPayload) (order : Order)
    (db : List Order) :
    ∃ o2 : Order,
      callbackWrite payload order db =
        (CallbackResponse.ok "Callback processed successfully.",
         saveOrder db o2,
         if isPaymentSuccess payload = true then 1 else 0) ∧
      o2.id = order.id ∧
      o2.merchantTransactionId = order.merchantTransactionId ∧
      (o2.paymentStatus = PaymentStatus.paid ∨
       o2.paymentStatus = PaymentStatus.failed) := by
  by_cases hs : isPaymentSuccess payload = true
  · by_cases hm : amountMismatch
        ((payload.data.bind (fun d => d.amount)).map (fun a => a / 100))
        order.total = true
    · refine ⟨paidMismatchOrder order (payload.data.bind (fun d => d.transactionId)),
        ?_, rfl, rfl, Or.inl rfl⟩
      simp only [callbackWrite]
      rw [if_pos hs, if_pos hm]
      simp [hs]
    · refine ⟨paidMatchedOrder order (payload.data.bind (fun d => d.transactionId)),
        ?_, rfl, rfl, Or.inl rfl⟩
      simp only [callbackWrite]
      rw [if_pos hs, if_neg hm]
      simp [hs]
  · refine ⟨failedOrder order (payload.data.bind (fun d => d.transactionId)),
      ?_, rfl, rfl, Or.inr rfl⟩
    simp only [callbackWrite]
    rw [if_neg hs]
    simp [hs]

/-- After the write phase has finalized the order, a second read of the same
request observes the finalized state and stops at the idempotency gate. -/
theorem callbackRead_finalized (env : SaltEnv)
    (decode : String → Option CallbackPayload) (req : CallbackRequest)
    (db : List Order) (enc received : String) (payload : CallbackPayload)
    (mtid : String) (order o2 : Order)
    (hresp : req.response = some enc) (hxv : req.xVerify = some received)
    (hver : verifyChecksum enc received env.saltKey env.saltIndex = true)
    (hdec : decode enc = some payload)
    (hmtid : payload.data.bind (fun d => d.merchantTransactionId) = some mtid)
    (hfind : findByMtid db mtid = some order)
    (hid : o2.id = order.id)
    (hmt : o2.merchantTransactionId = order.merchantTransactionId)
    (hfin : o2.paymentStatus = PaymentStatus.paid ∨
            o2.paymentStatus = PaymentStatus.failed) :
    callbackRead env decode req (saveOrder db o2) =
      ReadOutcome.early (CallbackResponse.ok "Already processed.") := by
  have hfind0 : db.find? (fun o => o.merchantTransactionId == some mtid) =
      some order := hfind
  have hp : (fun o : Order => o.merchantTransactionId == some mtid) order =
      true :=
    @List.find?_some Order (fun o => o.merchantTransactionId == some mtid)
      order db hfind0
  have hp2 : (o2.merchantTransactionId == some mtid) = true := by
    rw [hmt]; exact hp
  have hfind2 : findByMtid (saveOrder db o2) mtid = some o2 :=
    find?_saveOrder db _ order o2 hfind0 hid hp2
  rw [callbackRead_chain env decode req (saveOrder db o2) enc received payload
    mtid o2 hresp hxv hver hdec hmtid hfind2, if_pos hfin]

/-- Running the callback handler twice with the same request: the second run
leaves the database of the first run unchanged, and at most one notification
batch is sent in total. -/
theorem phonepeCallback_idem (env : SaltEnv)
    (decode : String → Option CallbackPayload) (req : CallbackRequest)
    (db : List Order) :
    (phonepeCallback env decode req
        ((phonepeCallback env decode req db).2.1)).2.1 =
      (phonepeCallback env decode req db).2.1 ∧
    (phonepeCallback env decode req db).2.2 +
      (phonepeCallback env decode req
        ((phonepeCallback env decode req db).2.1)).2.2 ≤ 1 := by
  cases hr : callbackRead env decode req db with
  | early r =>
    have h1 : phonepeCallback env decode req db = (r, db, 0) := by
      simp [phonepeCallback, hr, applyOutcome]
    rw [h1]
    simp [phonepeCallback, hr, applyOutcome]
  | proceed payload order =>
    obtain ⟨enc, received, mtid, hresp, hxv, hver, hdec, hmtid, hfind, hgate⟩ :=
      callbackRead_proceed_inv env decode req db payload order hr
    obtain ⟨o2, hw, hid, hmt, hfin⟩ := callbackWrite_fields payload order db
    have h1 : phonepeCallback env decode req db =
        (CallbackResponse.ok "Callback processed successfully.",
         saveOrder db o2, if isPaymentSuccess payload = true then 1 else 0) := by
      rw [phonepeCallback, hr]
      exact hw
    have h2 : callbackRead env decode req (saveOrder db o2) =
        ReadOutcome.early (CallbackResponse.ok "Already processed.") :=
      callbackRead_finalized env decode req db enc received payload mtid order
        o2 hresp hxv hver hdec hmtid hfind hid hmt hfin
    rw [h1]
    have h3 : phonepeCallback env decode req (saveOrder db o2) =
        (CallbackResponse.ok "Already processed.", saveOrder db o2, 0) := by
      simp [phonepeCallback, h2, applyOutcome]
    simp only [h3]
    refine ⟨trivial, ?_⟩
    by_cases hs : isPaymentSuccess payload = true <;> simp [hs]

/-- The code's strict amount comparison reads unequal exactly when the
converted amount is absent or differs from the total. -/
theorem amountMismatch_true_iff (pa : Option ℚ) (t : ℚ) :
    amountMismatch pa t = true ↔ pa ≠ some t := by
  cases pa <;> simp [amountMismatch]

/-! ## Claim theorems -/

/-- Claim C1: the spec says `verifyChecksum(payload, c, saltKey, saltIndex)`
is true iff `c` is the callback-mode checksum, hex SHA-256 of payload + salt
key formatted "<hexDigest>###<saltIndex>".  The code instead compares `c`
against the fixed string left by a mangled template literal, so the correctly
formatted checksum for payload "abc", salt key "key", salt index "1" is
rejected, while the fixed string is accepted under any salt whatsoever. -/
theorem verifyChecksum_ignores_digest :
    verifyChecksum "abc" (specCallbackChecksum "abc" "key" "1") "key" "1"
        = false ∧
    verifyChecksum "abc" corruptChecksumW "other" "2" = true := by
  constructor <;> decide

/-- Claim C2: a verified callback for an order already `paid` or `failed`
acknowledges with 200, mutates nothing and notifies nobody; and running the
handler twice with the identical request leaves the first run's database
unchanged and sends at most one notification batch in total. -/
theorem callback_already_processed_idempotent (env : SaltEnv)
    (decode : String → Option CallbackPayload) (req : CallbackRequest)
    (db db0 : List Order) (enc received : String) (payload : CallbackPayload)
    (mtid : String) (order : Order)
    (hresp : req.response = some enc) (hxv : req.xVerify = some received)
    (hver : verifyChecksum enc received env.saltKey env.saltIndex = true)
    (hdec : decode enc = some payload)
    (hmtid : payload.data.bind (fun d => d.merchantTransactionId) = some mtid)
    (hfind : findByMtid db mtid = some order)
    (hfin : order.paymentStatus = PaymentStatus.paid ∨
            order.paymentStatus = PaymentStatus.failed) :
    phonepeCallback env decode req db =
      (CallbackResponse.ok "Already processed.", db, 0) ∧
    (phonepeCallback env decode req
        ((phonepeCallback env decode req db0).2.1)).2.1 =
      (phonepeCallback env decode req db0).2.1 ∧
    (phonepeCallback env decode req db0).2.2 +
      (phonepeCallback env decode req
        ((phonepeCallback env decode req db0).2.1)).2.2 ≤ 1 := by
  refine ⟨?_, phonepeCallback_idem env decode req db0⟩
  have hread : callbackRead env decode req db =
      ReadOutcome.early (CallbackResponse.ok "Already processed.") := by
    rw [callbackRead_chain env decode req db enc received payload mtid order
      hresp hxv hver hdec hmtid hfind, if_pos hfin]
  simp [phonepeCallback, hread, applyOutcome]

/-- Witness for C2: with the concrete fixtures, the callback on an already
paid order answers 200 and changes nothing; starting instead from a pending
order, a second identical delivery leaves the database alone and the two runs
notify at most once. -/
theorem callback_already_processed_idempotent_witness :
    phonepeCallback saltEnvW decodeW reqSW [paidOrderW] =
      (CallbackResponse.ok "Already processed.", [paidOrderW], 0) ∧
    (phonepeCallback saltEnvW decodeW reqSW
        ((phonepeCallback saltEnvW decodeW reqSW [pendingOrderW]).2.1)).2.1 =
      (phonepeCallback saltEnvW decodeW reqSW [pendingOrderW]).2.1 ∧
    (phonepeCallback saltEnvW decodeW reqSW [pendingOrderW]).2.2 +
      (phonepeCallback saltEnvW decodeW reqSW
        ((phonepeCallback saltEnvW decodeW reqSW [pendingOrderW]).2.1)).2.2
      ≤ 1 :=
  callback_already_processed_idempotent saltEnvW decodeW reqSW [paidOrderW]
    [pendingOrderW] "encS" corruptChecksumW successPayloadW "MT1" paidOrderW
    (by decide) (by decide) (by decide) (by decide) (by decide) (by decide)
    (by decide)

/-- Claim C3: a verified callback on a pending order: under the success
classification the converted amount is compared with the total — equality
gives paid/processing, inequality gives paid/payment_issue — and otherwise
the order becomes failed/payment_failed; the gateway transaction id is
stored in every branch. -/
theorem callback_pending_transitions (env : SaltEnv)
    (decode : String → Option CallbackPayload) (req : CallbackRequest)
    (db : List Order) (enc received : String) (payload : CallbackPayload)
    (mtid : String) (order : Order)
    (hresp : req.response = some enc) (hxv : req.xVerify = some received)
    (hver : verifyChecksum enc received env.saltKey env.saltIndex = true)
    (hdec : decode enc = some payload)
    (hmtid : payload.data.bind (fun d => d.merchantTransactionId) = some mtid)
    (hfind : findByMtid db mtid = some order)
    (hpend : order.paymentStatus = PaymentStatus.pending) :
    (isPaymentSuccess payload = true →
      (payload.data.bind (fun d => d.amount)).map (fun a => a / 100)
          = some order.total →
      phonepeCallback env decode req db =
        (CallbackResponse.ok "Callback processed successfully.",
         saveOrder db (paidMatchedOrder order
           (payload.data.bind (fun d => d.transactionId))), 1)) ∧
    (isPaymentSuccess payload = true →
      (payload.data.bind (fun d => d.amount)).map (fun a => a / 100)
          ≠ some order.total →
      phonepeCallback env decode req db =
        (CallbackResponse.ok "Callback processed successfully.",
         saveOrder db (paidMismatchOrder order
           (payload.data.bind (fun d => d.transactionId))), 1)) ∧
    (isPaymentSuccess payload = false →
      phonepeCallback env decode req db =
        (CallbackResponse.ok "Callback processed successfully.",
         saveOrder db (failedOrder order
           (payload.data.bind (fun d => d.transactionId))), 0)) := by
  have hgate : ¬(order.paymentStatus = PaymentStatus.paid ∨
      order.paymentStatus = PaymentStatus.failed) := by
    simp [hpend]
  have hread : callbackRead env decode req db =
      ReadOutcome.proceed payload order := by
    rw [callbackRead_chain env decode req db enc received payload mtid order
      hresp hxv hver hdec hmtid hfind, if_neg hgate]
  have hrun : phonepeCallback env decode req db =
      callbackWrite payload order db := by
    simp [phonepeCallback, hread, applyOutcome]
  refine ⟨?_, ?_, ?_⟩
  · intro hs heq
    have hm : amountMismatch
        ((payload.data.bind (fun d => d.amount)).map (fun a => a / 100))
        order.total = false := (amountMismatch_false_iff _ _).2 heq
    rw [hrun]
    simp only [callbackWrite]
    rw [if_pos hs, if_neg (by simp only [hm]; decide)]
  · intro hs hneq
    have hm : amountMismatch
        ((payload.data.bind (fun d => d.amount)).map (fun a => a / 100))
        order.total = true := (amountMismatch_true_iff _ _).2 hneq
    rw [hrun]
    simp only [callbackWrite]
    rw [if_pos hs, if_pos hm]
  · intro hs
    rw [hrun]
    simp only [callbackWrite]
    rw [if_neg (by simp [hs])]

/-- Witness for C3: the success fixture with matching amount 50000 paise on
the pending order with total 500. -/
theorem callback_pending_transitions_witness :
    (isPaymentSuccess successPayloadW = true →
      (successPayloadW.data.bind (fun d => d.amount)).map (fun a => a / 100)
          = some pendingOrderW.total →
      phonepeCallback saltEnvW decodeW reqSW [pendingOrderW] =
        (CallbackResponse.ok "Callback processed successfully.",
         saveOrder [pendingOrderW] (paidMatchedOrder pendingOrderW
           (successPayloadW.data.bind (fun d => d.transactionId))), 1)) ∧
    (isPaymentSuccess successPayloadW = true →
      (successPayloadW.data.bind (fun d => d.amount)).map (fun a => a / 100)
          ≠ some pendingOrderW.total →
      phonepeCallback saltEnvW decodeW reqSW [pendingOrderW] =
        (CallbackResponse.ok "Callback processed successfully.",
         saveOrder [pendingOrderW] (paidMismatchOrder pendingOrderW
           (successPayloadW.data.bind (fun d => d.transactionId))), 1)) ∧
    (isPaymentSuccess successPayloadW = false →
      phonepeCallback saltEnvW decodeW reqSW [pendingOrderW] =
        (CallbackResponse.ok "Callback processed successfully.",
         saveOrder [pendingOrderW] (failedOrder pendingOrderW
           (successPayloadW.data.bind (fun d => d.transactionId))), 0)) :=
  callback_pending_transitions saltEnvW decodeW reqSW [pendingOrderW] "encS"
    corruptChecksumW successPayloadW "MT1" pendingOrderW (by decide)
    (by decide) (by decide) (by decide) (by decide) (by decide) (by decide)

/-- Claim C4: a callback whose signature header is missing or fails
verification is rejected with a 400-equivalent response before the payload
is processed: the database is untouched and no notification is sent. -/
theorem callback_unverified_rejected (env : SaltEnv)
    (decode : String → Option CallbackPayload) (req : CallbackRequest)
    (db : List Order)
    (h : req.xVerify = none ∨
      ∃ enc received, req.response = some enc ∧ req.xVerify = some received ∧
        verifyChecksum enc received env.saltKey env.saltIndex = false) :
    (phonepeCallback env decode req db).1.is400 = true ∧
    (phonepeCallback env decode req db).2.1 = db ∧
    (phonepeCallback env decode req db).2.2 = 0 := by
  rcases h with hxv | ⟨enc, received, hresp, hxv, hver⟩
  · cases hresp : req.response with
    | none =>
      simp [phonepeCallback, callbackRead, applyOutcome, hresp, hxv,
        CallbackResponse.is400]
    | some enc =>
      simp [phonepeCallback, callbackRead, applyOutcome, hresp, hxv,
        CallbackResponse.is400]
  · simp [phonepeCallback, callbackRead, applyOutcome, hresp, hxv, hver,
      CallbackResponse.is400]

/-- Witness for C4: a wrong signature on the success payload is rejected
with 400, no database change, no notification. -/
theorem callback_unverified_rejected_witness :
    (phonepeCallback saltEnvW decodeW reqBadW [pendingOrderW]).1.is400
        = true ∧
    (phonepeCallback saltEnvW decodeW reqBadW [pendingOrderW]).2.1 =
      [pendingOrderW] ∧
    (phonepeCallback saltEnvW decodeW reqBadW [pendingOrderW]).2.2 = 0 :=
  callback_unverified_rejected saltEnvW decodeW reqBadW [pendingOrderW]
    (Or.inr ⟨"encS", "wrong", by decide, by decide, by decide⟩)

/-- Claim C9: a verified success-classified callback whose data block lacks
an amount compares NaN with the total, which never holds, so the pending
order always becomes paid with status payment_issue. -/
theorem callback_missing_amount_payment_issue (env : SaltEnv)
    (decode : String → Option CallbackPayload) (req : CallbackRequest)
    (db : List Order) (enc received : String) (payload : CallbackPayload)
    (mtid : String) (order : Order)
    (hresp : req.response = some enc) (hxv : req.xVerify = some received)
    (hver : verifyChecksum enc received env.saltKey env.saltIndex = true)
    (hdec : decode enc = some payload)
    (hmtid : payload.data.bind (fun d => d.merchantTransactionId) = some mtid)
    (hfind : findByMtid db mtid = some order)
    (hpend : order.paymentStatus = PaymentStatus.pending)
    (hs : isPaymentSuccess payload = true)
    (hnone : payload.data.bind (fun d => d.amount) = none) :
    phonepeCallback env decode req db =
      (CallbackResponse.ok "Callback processed successfully.",
       saveOrder db (paidMismatchOrder order
         (payload.data.bind (fun d => d.transactionId))), 1) := by
  have hgate : ¬(order.paymentStatus = PaymentStatus.paid ∨
      order.paymentStatus = PaymentStatus.failed) := by
    simp [hpend]
  have hread : callbackRead env decode req db =
      ReadOutcome.proceed payload order := by
    rw [callbackRead_chain env decode req db enc received payload mtid order
      hresp hxv hver hdec hmtid hfind, if_neg hgate]
  have hm : amountMismatch
      ((payload.data.bind (fun d => d.amount)).map (fun a => a / 100))
      order.total = true := by
    rw [hnone]; rfl
  have hrun : phonepeCallback env decode req db =
      callbackWrite payload order db := by
    simp [phonepeCallback, hread, applyOutcome]
  rw [hrun]
  simp only [callbackWrite]
  rw [if_pos hs, if_pos hm]

/-- Witness for C9: the missing-amount fixture flags the pending order as
paid with payment_issue and one notification batch. -/
theorem callback_missing_amount_payment_issue_witness :
    phonepeCallback saltEnvW decodeW reqNW [pendingOrderW] =
      (CallbackResponse.ok "Callback processed successfully.",
       saveOrder [pendingOrderW] (paidMismatchOrder pendingOrderW
         (missingAmountPayloadW.data.bind (fun d => d.transactionId))), 1) :=
  callback_missing_amount_payment_issue saltEnvW decodeW reqNW [pendingOrderW]
    "encN" corruptChecksumW missingAmountPayloadW "MT1" pendingOrderW
    (by decide) (by decide) (by decide) (by decide) (by decide) (by decide)
    (by decide) (by decide) (by decide)

/-- Mapping the conditional update over a database whose ids all differ from
the appended order's id touches only the appended order. -/
theorem updateOrderById_append (db : List Order) (o : Order)
    (st : OrderStatus) (ps : PaymentStatus)
    (hfresh : ∀ x ∈ db, x.id ≠ o.id) :
    updateOrderById (db ++ [o]) o.id st ps =
      db ++ [{ o with status := st, paymentStatus := ps }] := by
  rw [updateOrderById, List.map_append]
  congr 1
  · induction db with
    | nil => rfl
    | cons a t ih =>
      simp only [List.map_cons]
      rw [if_neg (by simpa using hfresh a (List.mem_cons_self a t))]
      rw [ih (fun x hx => hfresh x (List.mem_cons_of_mem a hx))]
  · simp

/-- Claim C5 counterexample: the COD creation endpoint accepts a body whose
declared total 999 differs from the items sum plus shipping (10), and
persists the order with total 999 — no equation is checked. -/
theorem postCODOrder_total_unchecked :
    postCODOrder 5 7 codBodyW =
      CODResult.created
        { id := 7
          userId := 5
          items := [{ productId := 1, quantity := 1, price := 10 }]
          paymentMethod := PaymentMethod.cod
          shippingCharge := 0
          total := 999
          merchantTransactionId := none
          gatewayTransactionId := none
          paymentStatus := PaymentStatus.not_applicable
          status := OrderStatus.processing } ∧
    (999 : ℚ) ≠ (codBodyW.items.map (fun it => it.quantity * it.price)).sum
        + codBodyW.shippingCharge.getD 0 := by
  with_unfolding_all decide

/-- Claim C5 as amended: COD creation checks only the presence/truthiness of
shippingAddress, total and items (plus the schema quantity bound); the
supplied total is persisted unchanged, with no relation to the items sum
plus shipping enforced. -/
theorem postCODOrder_presence_checks_only (userId newId : Nat)
    (body : OrderBody)
    (hm : body.paymentMethod = "cod")
    (ha : body.shippingAddress ≠ none)
    (ht : jsTruthyNum body.total = true)
    (hi : body.items ≠ [])
    (hq : mongooseValidate (codOrderDoc userId newId body) = true) :
    postCODOrder userId newId body =
      CODResult.created { codOrderDoc userId newId body with
        paymentStatus := PaymentStatus.not_applicable
        status := OrderStatus.processing } ∧
    ({ codOrderDoc userId newId body with
        paymentStatus := PaymentStatus.not_applicable
        status := OrderStatus.processing } : Order).total
      = body.total.getD 0 := by
  have hcreate : orderCreate (codOrderDoc userId newId body) =
      some { codOrderDoc userId newId body with
        paymentStatus := PaymentStatus.not_applicable
        status := OrderStatus.processing } := by
    rw [orderCreate, if_pos hq]
    rfl
  refine ⟨?_, rfl⟩
  rw [postCODOrder, if_neg (by simp [hm]), if_neg (by simp [ha, ht, hi]),
    hcreate]

/-- Witness for the amended C5: the mismatched-total body is accepted and its
total persisted as supplied. -/
theorem postCODOrder_presence_checks_only_witness :
    postCODOrder 5 7 codBodyW =
      CODResult.created { codOrderDoc 5 7 codBodyW with
        paymentStatus := PaymentStatus.not_applicable
        status := OrderStatus.processing } ∧
    ({ codOrderDoc 5 7 codBodyW with
        paymentStatus := PaymentStatus.not_applicable
        status := OrderStatus.processing } : Order).total
      = codBodyW.total.getD 0 :=
  postCODOrder_presence_checks_only 5 7 codBodyW (by decide) (by decide)
    (by decide) (by decide) (by decide)

/-- Claim C6: whatever status fields the document carried before creation,
a created COD order has paymentStatus not_applicable and status processing,
and a created online order has paymentStatus pending and status
payment_pending — the pre-save hook overrides both. -/
theorem orderCreate_statuses_by_method (o o2 : Order)
    (h : orderCreate o = some o2) :
    o2.paymentStatus = (match o.paymentMethod with
      | PaymentMethod.cod => PaymentStatus.not_applicable
      | PaymentMethod.online => PaymentStatus.pending) ∧
    o2.status = (match o.paymentMethod with
      | PaymentMethod.cod => OrderStatus.processing
      | PaymentMethod.online => OrderStatus.payment_pending) := by
  rw [orderCreate] at h
  by_cases hv : mongooseValidate o = true
  · rw [if_pos hv] at h
    have h2 : preSaveHook true o = o2 := by injection h
    subst h2
    cases hpm : o.paymentMethod <;> simp [preSaveHook, hpm]
  · rw [if_neg hv] at h
    cases h

/-- Witness for C6: a COD document supplied with paymentStatus paid and
status shipped is persisted as not_applicable/processing. -/
theorem orderCreate_statuses_by_method_witness :
    codCreatedW.paymentStatus = (match codSuppliedW.paymentMethod with
      | PaymentMethod.cod => PaymentStatus.not_applicable
      | PaymentMethod.online => PaymentStatus.pending) ∧
    codCreatedW.status = (match codSuppliedW.paymentMethod with
      | PaymentMethod.cod => OrderStatus.processing
      | PaymentMethod.online => OrderStatus.payment_pending) :=
  orderCreate_statuses_by_method codSuppliedW codCreatedW (by decide)

/-- Claim C7 counterexample: when the gateway call throws (network/HTTP
error), the catch block surfaces the error but contains no order update, so
the created order stays pending/payment_pending instead of being
transitioned to failed/payment_failed. -/
theorem initiatePayment_axios_error_stays_pending :
    initiatePayment gatewayEnvW 5 7 "MT1"
        (GatewayReply.axiosFailure none "connect ECONNREFUSED")
        onlineBodyW [] =
      (InitiateResult.failed 500 "connect ECONNREFUSED", [pendingOrderW]) ∧
    pendingOrderW.paymentStatus = PaymentStatus.pending ∧
    pendingOrderW.status = OrderStatus.payment_pending := by
  with_unfolding_all decide

/-- Claim C7 as amended: when payment initiation passes validation and the
gateway answers synchronously without success or without a redirect URL, the
order is set to failed/payment_failed and a 500 error is surfaced; when the
gateway call throws, the error is surfaced but the order stays as created,
pending/payment_pending. -/
theorem initiatePayment_failure_transitions (env : GatewayEnv)
    (userId newId : Nat) (mtid : String) (body : OrderBody) (db : List Order)
    (success : Bool) (url message : Option String) (st : Option Nat)
    (msg : String)
    (hm : body.paymentMethod = "online")
    (ha : body.shippingAddress ≠ none)
    (ht : jsTruthyNum body.total = true)
    (hi : body.items ≠ [])
    (hp : jsTruthyStr (body.shippingAddress.map (fun a => a.phone)) = true)
    (he : gatewayEnvConfigured env = true)
    (hq : mongooseValidate (onlineOrderDoc userId newId mtid body) = true)
    (hfresh : ∀ x ∈ db, x.id ≠ newId) :
    (¬(success = true ∧ url.isSome = true) →
      initiatePayment env userId newId mtid
          (GatewayReply.resolved success url message) body db =
        (InitiateResult.failed 500
          (message.getD "Failed to initiate payment with PhonePe."),
         db ++ [{ onlineOrderDoc userId newId mtid body with
                    status := OrderStatus.payment_failed
                    paymentStatus := PaymentStatus.failed }])) ∧
    initiatePayment env userId newId mtid (GatewayReply.axiosFailure st msg)
        body db =
      (InitiateResult.failed (st.getD 500) msg,
       db ++ [onlineOrderDoc userId newId mtid body]) := by
  have hcreate : orderCreate (onlineOrderDoc userId newId mtid body) =
      some (onlineOrderDoc userId newId mtid body) := by
    rw [orderCreate, if_pos hq]
    rfl
  have hcommon : ∀ gw, initiatePayment env userId newId mtid gw body db =
      (match gw with
       | GatewayReply.resolved success url message =>
         if success ∧ url.isSome then
           (InitiateResult.redirect (url.getD ""),
            db ++ [onlineOrderDoc userId newId mtid body])
         else
           (InitiateResult.failed 500
             (message.getD "Failed to initiate payment with PhonePe."),
            updateOrderById (db ++ [onlineOrderDoc userId newId mtid body])
              (onlineOrderDoc userId newId mtid body).id
              OrderStatus.payment_failed PaymentStatus.failed)
       | GatewayReply.axiosFailure st msg =>
         (InitiateResult.failed (st.getD 500) msg,
          db ++ [onlineOrderDoc userId newId mtid body])) := by
    intro gw
    rw [initiatePayment, if_neg (by simp [hm])]
    dsimp only
    rw [if_neg (by simp [ha, ht, hi, hp]), if_neg (by simp [he]), hcreate]
  constructor
  · intro hgw
    rw [hcommon (GatewayReply.resolved success url message)]
    dsimp only
    rw [if_neg hgw]
    rw [updateOrderById_append db (onlineOrderDoc userId newId mtid body)
      OrderStatus.payment_failed PaymentStatus.failed
      (fun x hx => hfresh x hx)]
  · rw [hcommon (GatewayReply.axiosFailure st msg)]

/-- Witness for the amended C7: a resolved reply without success and a thrown
network error, both on an empty database. -/
theorem initiatePayment_failure_transitions_witness :
    (¬(false = true ∧ (none : Option String).isSome = true) →
      initiatePayment gatewayEnvW 5 7 "MT1"
          (GatewayReply.resolved false none (some "KEY_ERROR")) onlineBodyW
          [] =
        (InitiateResult.failed 500
          ((some "KEY_ERROR").getD "Failed to initiate payment with PhonePe."),
         [] ++ [{ onlineOrderDoc 5 7 "MT1" onlineBodyW with
                    status := OrderStatus.payment_failed
                    paymentStatus := PaymentStatus.failed }])) ∧
    initiatePayment gatewayEnvW 5 7 "MT1"
        (GatewayReply.axiosFailure none "connect ECONNREFUSED") onlineBodyW
        [] =
      (InitiateResult.failed ((none : Option Nat).getD 500)
        "connect ECONNREFUSED",
       [] ++ [onlineOrderDoc 5 7 "MT1" onlineBodyW]) :=
  initiatePayment_failure_transitions gatewayEnvW 5 7 "MT1" onlineBodyW []
    false none (some "KEY_ERROR") none "connect ECONNREFUSED" (by decide)
    (by decide) (by with_unfolding_all decide) (by decide) (by decide)
    (by decide) (by with_unfolding_all decide) (by decide)

/-- Claim C8 counterexample: two success deliveries for the same merchant
transaction id interleaved read–read–write–write both pass the idempotency
gate and both perform the transition — each sends a notification batch, so
the side effect fires twice rather than at most once, and neither takes the
no-op path. -/
theorem race_notifies_twice :
    raceCallbacks saltEnvW decodeW reqSW reqSW [pendingOrderW] =
      ([paidOrderW], 1, 1) := by
  with_unfolding_all decide

/-- Claim C8 as amended: the handler reads with `findOne` and writes with
`save` — a separate read then an unconditional write, not a conditional
update keyed on paymentStatus = pending.  Sequentially that still gives
exactly one transition: after the first delivery writes, the second delivery
hits the gate, answers 200, changes nothing and sends nothing.  But a second
read performed before the first write also passes the gate (first conjunct),
so interleaved deliveries both perform their transition. -/
theorem callback_gate_sequential_only (env : SaltEnv)
    (decode : String → Option CallbackPayload) (req1 req2 : CallbackRequest)
    (db : List Order) (enc1 rec1 : String) (payload1 : CallbackPayload)
    (enc2 rec2 : String) (payload2 : CallbackPayload) (mtid : String)
    (order : Order)
    (hresp1 : req1.response = some enc1) (hxv1 : req1.xVerify = some rec1)
    (hver1 : verifyChecksum enc1 rec1 env.saltKey env.saltIndex = true)
    (hdec1 : decode enc1 = some payload1)
    (hmtid1 : payload1.data.bind (fun d => d.merchantTransactionId)
        = some mtid)
    (hresp2 : req2.response = some enc2) (hxv2 : req2.xVerify = some rec2)
    (hver2 : verifyChecksum enc2 rec2 env.saltKey env.saltIndex = true)
    (hdec2 : decode enc2 = some payload2)
    (hmtid2 : payload2.data.bind (fun d => d.merchantTransactionId)
        = some mtid)
    (hfind : findByMtid db mtid = some order)
    (hpend : order.paymentStatus = PaymentStatus.pending) :
    callbackRead env decode req2 db = ReadOutcome.proceed payload2 order ∧
    phonepeCallback env decode req2
        ((phonepeCallback env decode req1 db).2.1) =
      (CallbackResponse.ok "Already processed.",
       (phonepeCallback env decode req1 db).2.1, 0) := by
  have hgate : ¬(order.paymentStatus = PaymentStatus.paid ∨
      order.paymentStatus = PaymentStatus.failed) := by
    simp [hpend]
  have hread2 : callbackRead env decode req2 db =
      ReadOutcome.proceed payload2 order := by
    rw [callbackRead_chain env decode req2 db enc2 rec2 payload2 mtid order
      hresp2 hxv2 hver2 hdec2 hmtid2 hfind, if_neg hgate]
  have hread1 : callbackRead env decode req1 db =
      ReadOutcome.proceed payload1 order := by
    rw [callbackRead_chain env decode req1 db enc1 rec1 payload1 mtid order
      hresp1 hxv1 hver1 hdec1 hmtid1 hfind, if_neg hgate]
  obtain ⟨o2, hw, hid, hmt, hfin⟩ := callbackWrite_fields payload1 order db
  have h1 : (phonepeCallback env decode req1 db).2.1 = saveOrder db o2 := by
    simp [phonepeCallback, hread1, applyOutcome, hw]
  have h2 : callbackRead env decode req2 (saveOrder db o2) =
      ReadOutcome.early (CallbackResponse.ok "Already processed.") :=
    callbackRead_finalized env decode req2 db enc2 rec2 payload2 mtid order
      o2 hresp2 hxv2 hver2 hdec2 hmtid2 hfind hid hmt hfin
  refine ⟨hread2, ?_⟩
  rw [h1]
  simp [phonepeCallback, h2, applyOutcome]

/-- Witness for the amended C8: a success and a failure delivery for "MT1";
the failure delivery read against the initial database passes the gate, yet
run after the success delivery completes it is the idempotent no-op. -/
theorem callback_gate_sequential_only_witness :
    callbackRead saltEnvW decodeW reqFW [pendingOrderW] =
      ReadOutcome.proceed failurePayloadW pendingOrderW ∧
    phonepeCallback saltEnvW decodeW reqFW
        ((phonepeCallback saltEnvW decodeW reqSW [pendingOrderW]).2.1) =
      (CallbackResponse.ok "Already processed.",
       (phonepeCallback saltEnvW decodeW reqSW [pendingOrderW]).2.1, 0) :=
  callback_gate_sequential_only saltEnvW decodeW reqSW reqFW [pendingOrderW]
    "encS" corruptChecksumW successPayloadW "encF" corruptChecksumW
    failurePayloadW "MT1" pendingOrderW (by decide) (by decide) (by decide)
    (by decide) (by decide) (by decide) (by decide) (by decide) (by decide)
    (by decide) (by decide) (by decide)

/-- Claim C10: the status-by-merchant-transaction-id lookup returns order
data only for an order owned by the requester (and only the selected id and
payment status); when every order carrying the transaction id belongs to a
different user, it answers 404. -/
theorem statusByMtid_owner_scoped (userId : Nat) (mtid : String)
    (db : List Order) :
    (∀ oid ps, statusByMtid userId mtid db = StatusResult.found oid ps →
      ∃ o, o ∈ db ∧ o.userId = userId ∧
        o.merchantTransactionId = some mtid ∧
        oid = (selectStatusFields o).id ∧
        ps = (selectStatusFields o).paymentStatus) ∧
    ((∀ o ∈ db, o.merchantTransactionId = some mtid → o.userId ≠ userId) →
      statusByMtid userId mtid db =
        StatusResult.notFound 404 "Order not found for this transaction ID.") := by
  constructor
  · intro oid ps h
    cases hfind : db.find? (fun o =>
        o.merchantTransactionId == some mtid && o.userId == userId) with
    | none =>
      rw [statusByMtid, hfind] at h
      cases h
    | some o =>
      have hmem := List.mem_of_find?_eq_some hfind
      have hp := List.find?_some hfind
      simp only [Bool.and_eq_true, beq_iff_eq] at hp
      rw [statusByMtid, hfind] at h
      dsimp only [Option.map] at h
      refine ⟨o, hmem, hp.2, hp.1, ?_, ?_⟩
      · injection h with h1 h2
        exact h1.symm
      · injection h with h1 h2
        exact h2.symm
  · intro hall
    have hfind : db.find? (fun o =>
        o.merchantTransactionId == some mtid && o.userId == userId)
        = none := by
      rw [List.find?_eq_none]
      intro x hx
      simp only [Bool.and_eq_true, beq_iff_eq, not_and]
      exact fun hmt hu => hall x hx hmt hu
    rw [statusByMtid, hfind]
    rfl

/-- Witness for C10: the pending order belongs to user 5, so user 99 polling
its transaction id gets 404. -/
theorem statusByMtid_owner_scoped_witness :
    statusByMtid 99 "MT1" [pendingOrderW] =
      StatusResult.notFound 404 "Order not found for this transaction ID." :=
  (statusByMtid_owner_scoped 99 "MT1" [pendingOrderW]).2 (by decide)
